import Mathlib

/-!
Shallow embedding of the rsync/scp copy orchestrator in `bw_copy_tool.py`:
the progress-line parsing, the `ProgressBar` state, the conflict-resolution
prompt, the retry loop and the per-item main loop. Python floats are
modelled as exact rationals; wall-clock instants from `time.time()` become
rational parameters supplied by the caller; user input becomes a queue of
strings; subprocess effects become explicit event traces.
-/

/-- Value of an all-digit string, as Python `int()` reads it. -/
def digitsVal (cs : List Char) : Nat :=
  cs.foldl (fun a c => a * 10 + (c.toNat - 48)) 0

/-- Whether the first character list starts the second one. -/
def charsStart : List Char → List Char → Bool
  | [], _ => true
  | _ :: _, [] => false
  | a :: as, b :: bs => a == b && charsStart as bs

/-- Whether the first character list occurs contiguously in the second. -/
def charsSub (sub : List Char) : List Char → Bool
  | [] => charsStart sub []
  | b :: bs => charsStart sub (b :: bs) || charsSub sub bs

/-- Python substring test `sub in s`. -/
def containsSub (s sub : String) : Bool :=
  charsSub sub.toList s.toList

/-- Python `str.strip()` on the character list: drop leading and trailing
whitespace. -/
def pyStripChars (cs : List Char) : List Char :=
  ((cs.dropWhile Char.isWhitespace).reverse.dropWhile Char.isWhitespace).reverse

/-- Python `str.strip()`. -/
def pyStrip (s : String) : String :=
  ⟨pyStripChars s.toList⟩

/-- Python `str.lower()`. -/
def pyLower (s : String) : String :=
  ⟨s.toList.map Char.toLower⟩

/-- Python `str.startswith(pre)`. -/
def pyStartsWith (s pre : String) : Bool :=
  charsStart pre.toList s.toList

/-- Python `str.endswith(suf)`. -/
def pyEndsWith (s suf : String) : Bool :=
  charsStart suf.toList.reverse s.toList.reverse

/-- Python slice `s[:-1]`: everything but the last character. -/
def pyDropLast (s : String) : String :=
  ⟨s.toList.dropLast⟩

/-- Helper for `pySplit`: accumulate the current token (reversed) while
walking the characters, emitting a token at each whitespace run. -/
def splitWsAux : List Char → List Char → List String
  | acc, [] => if acc.isEmpty then [] else [⟨acc.reverse⟩]
  | acc, c :: cs =>
    if c.isWhitespace then
      if acc.isEmpty then splitWsAux [] cs else (⟨acc.reverse⟩ : String) :: splitWsAux [] cs
    else splitWsAux (c :: acc) cs

/-- Python `str.split()` with no separator: split on whitespace runs,
dropping empty pieces. -/
def pySplit (s : String) : List String :=
  splitWsAux [] s.toList

/-- Helper for `pySplitColon`: split on every occurrence of the separator,
keeping empty pieces, as Python `str.split(sep)` does. -/
def splitChAux (sep : Char) : List Char → List Char → List String
  | acc, [] => [⟨acc.reverse⟩]
  | acc, c :: cs =>
    if c == sep then (⟨acc.reverse⟩ : String) :: splitChAux sep [] cs
    else splitChAux sep (c :: acc) cs

/-- Python `s.split(":")`. -/
def pySplitColon (s : String) : List String :=
  splitChAux ':' [] s.toList

/-- Fraction-free helper for `parseFloat`: the numeral grammar after an
optional sign, namely digits, optionally followed by a point and digits. -/
def parseFloatCore (cs : List Char) : Option ℚ :=
  let intPart := cs.takeWhile Char.isDigit
  let rest := cs.dropWhile Char.isDigit
  match rest with
  | [] => if intPart.isEmpty then none else some ((digitsVal intPart : ℚ))
  | '.' :: frac =>
    if frac.all Char.isDigit && !(intPart.isEmpty && frac.isEmpty) then
      some ((digitsVal intPart : ℚ) + (digitsVal frac : ℚ) / ((10 : ℚ) ^ frac.length))
    else none
  | _ => none

/-- Python `float()` on the plain decimal numerals that occur in transfer
tool output: optional sign, digits, optional fractional part. Returns none
where `float()` raises `ValueError`; the enclosing `except` in the source
then swallows the whole parse attempt. -/
def parseFloat (s : String) : Option ℚ :=
  match s.toList with
  | '-' :: rest => (parseFloatCore rest).map (fun q => -q)
  | '+' :: rest => parseFloatCore rest
  | cs => parseFloatCore cs

/-- Python `int()` on a rational value: truncation toward zero. -/
def pyInt (q : ℚ) : ℤ :=
  if q < 0 then -(Int.floor (-q)) else Int.floor q

/-- Python `str.isdigit()`: non-empty and all digits. -/
def pyIsDigit (s : String) : Bool :=
  !s.toList.isEmpty && s.toList.all Char.isDigit

/-- First whitespace token ending in the percent sign, as scanned by the
token loops of `copy_folder` and `copy_logs`. -/
def firstPercentTok : List String → Option String
  | [] => none
  | p :: rest => if pyEndsWith p "%" then some p else firstPercentTok rest

/-- Percent value extracted from a progress line's tokens: the first token
ending in a percent sign is stripped of it and fed to `float`; a parse
failure there raises, and the surrounding handler drops the whole line. -/
def percentSignal (toks : List String) : Option ℚ :=
  (firstPercentTok toks).bind (fun p => parseFloat (pyDropLast p))

/-- Inner scan of the summary branch in `copy_folder` (lines 533-539): the
first all-digit token at position above zero whose predecessor token is the
literal "received", read as an absolute byte count. -/
def findReceivedAux : String → List String → Option Nat
  | _, [] => none
  | prev, p :: rest =>
    if pyIsDigit p && prev == "received" then some (digitsVal p.toList)
    else findReceivedAux p rest

/-- Token scan of a summary line starting the predecessor chain at the head
token, so a digit token in first position is never taken. -/
def findReceivedTok : List String → Option Nat
  | [] => none
  | p :: rest => findReceivedAux p rest

/-- One iteration of the line-consuming loop of `copy_folder`
(`bw_copy_tool.py` lines 516-541): the byte signal, if any, that the line
feeds to `progress_bar.update`. The first branch takes every non-blank line
not starting with the file-list header; only when that branch is declined
does the `elif` test the two summary markers. -/
def parseLine (totalSize : ℤ) (line : String) : Option ℤ :=
  if pyStrip line ≠ "" ∧ ¬ pyStartsWith line "sending incremental file list" then
    if containsSub line "%" && containsSub line "MB/s" then
      match percentSignal (pySplit line) with
      | some percent => some (pyInt (percent / 100 * (totalSize : ℚ)))
      | none => none
    else none
  else
    if containsSub line "bytes sent" && containsSub line "bytes received" then
      (findReceivedTok (pySplit line)).map (fun n => (n : ℤ))
    else none

/-- The `ProgressBar` state (`bw_copy_tool.py` lines 208-270). `current_size`
starts at 0 and `last_update` at 0, as in `__init__`; `start_time` is the
construction instant. -/
structure ProgressBar where
  total_size : ℤ
  current_size : ℤ
  start_time : ℚ
  last_update : ℚ
deriving DecidableEq

/-- `ProgressBar.__init__` with a given construction instant. -/
def ProgressBar.init (totalSizeBytes : ℤ) (now : ℚ) : ProgressBar :=
  ⟨totalSizeBytes, 0, now, 0⟩

/-- `ProgressBar.update` (lines 218-226): record the transferred bytes
unconditionally, and trigger a re-render only when at least one second has
passed since the last render. Returns the new state and whether `display`
was triggered. -/
def ProgressBar.update (pb : ProgressBar) (bytesTransferred : ℤ) (now : ℚ) :
    ProgressBar × Bool :=
  if 1 ≤ now - pb.last_update then
    ({ pb with current_size := bytesTransferred, last_update := now }, true)
  else
    ({ pb with current_size := bytesTransferred }, false)

/-- Two-digit zero padding, as in Python's `timedelta` rendering. -/
def pad2 (n : Nat) : String :=
  if n < 10 then "0" ++ toString n else toString n

/-- H:MM:SS rendering of a second count below one day. -/
def hms (r : Nat) : String :=
  toString (r / 3600) ++ ":" ++ pad2 (r % 3600 / 60) ++ ":" ++ pad2 (r % 60)

/-- Python `str(timedelta(seconds=t))`: normalise into whole days (floor)
plus a remainder in [0, 86400), printing the day count only when nonzero. -/
def formatTimedelta (t : ℤ) : String :=
  let d := t.ediv 86400
  let r := (t.emod 86400).toNat
  if d = 0 then hms r
  else toString d ++ (if d = 1 ∨ d = -1 then " day, " else " days, ") ++ hms r

/-- The fields of the single status line written by `ProgressBar.display`:
clamped percent, transferred and total size in MB, speed in MB/s, and the
ETA text exactly as rendered. -/
structure Render where
  percent : ℚ
  currentMB : ℚ
  totalMB : ℚ
  speedMB : ℚ
  eta : String
deriving DecidableEq

/-- `ProgressBar.display` (lines 228-263): none exactly when the method
returns without writing anything, which happens when the total size is
unknown or zero, or no time has elapsed. The ETA divides remaining bytes by
the current speed only when that speed is positive, else renders the
infinity marker. -/
def ProgressBar.display (pb : ProgressBar) (now : ℚ) : Option Render :=
  if pb.total_size ≤ 0 then none
  else
    let elapsed := now - pb.start_time
    if elapsed ≤ 0 then none
    else
      let progress := min ((pb.current_size : ℚ) / (pb.total_size : ℚ)) 1
      let percent := progress * 100
      let currentSpeed := if 0 < elapsed then (pb.current_size : ℚ) / elapsed else 0
      let eta :=
        if 0 < currentSpeed then
          formatTimedelta (pyInt (((pb.total_size : ℚ) - (pb.current_size : ℚ)) / currentSpeed))
        else "∞"
      some ⟨percent, (pb.current_size : ℚ) / (1024 * 1024),
            (pb.total_size : ℚ) / (1024 * 1024), currentSpeed / (1024 * 1024), eta⟩

/-- The final one-line summary of `ProgressBar.finish` (lines 265-270):
elapsed seconds and average speed computed from `total_size`; the summary
carries no byte-total field. none when no time has elapsed. -/
structure FinishSummary where
  elapsed : ℚ
  avgSpeedMB : ℚ
deriving DecidableEq

/-- `ProgressBar.finish`. -/
def ProgressBar.finish (pb : ProgressBar) (now : ℚ) : Option FinishSummary :=
  let elapsed := now - pb.start_time
  if 0 < elapsed then some ⟨elapsed, (pb.total_size : ℚ) / elapsed / (1024 * 1024)⟩
  else none

/-- A sequence of timestamped `update` calls; returns the final state and
the wall-clock instants at which a render was triggered. -/
def runUpdates (pb : ProgressBar) : List (ℚ × ℤ) → ProgressBar × List ℚ
  | [] => (pb, [])
  | (t, b) :: rest =>
    let step := pb.update b t
    let tail := runUpdates step.1 rest
    (tail.1, if step.2 then t :: tail.2 else tail.2)

/-- One line of the `copy_logs` stream loop (lines 617-632): a percent token
on a rate line overwrites `current_size` with `int(percent * 1024 * 1024)`
directly and calls `display`; there is no summary branch here. -/
def copyLogsStep (pb : ProgressBar) (now : ℚ) (line : String) :
    ProgressBar × Option Render :=
  if pyStrip line ≠ "" ∧ ¬ pyStartsWith line "sending incremental file list" then
    if containsSub line "%" && containsSub line "MB/s" then
      match percentSignal (pySplit line) with
      | some percent =>
        let pb1 := { pb with current_size := pyInt (percent * 1024 * 1024) }
        (pb1, pb1.display now)
      | none => (pb, none)
    else (pb, none)
  else (pb, none)

/-- The whole `copy_logs` stream loop over the timestamped output lines. -/
def copyLogsRun (pb : ProgressBar) : List (ℚ × String) → ProgressBar × List (Option Render)
  | [] => (pb, [])
  | (t, line) :: rest =>
    let step := copyLogsStep pb t line
    let tail := copyLogsRun step.1 rest
    (tail.1, step.2 :: tail.2)

/-- The transfer phase of `copy_logs` (lines 608-648): the progress bar is
built with total 0 because the size is unknown, the stream loop runs, then
`finish`, and the function reports success exactly when rsync exited 0. -/
def copy_logs_transfer (startTime : ℚ) (outLines : List (ℚ × String)) (endTime : ℚ)
    (exitCode : ℤ) : List (Option Render) × Option FinishSummary × Bool :=
  let pb0 := ProgressBar.init 0 startTime
  let run := copyLogsRun pb0 outLines
  (run.2, run.1.finish endTime, exitCode == 0)

/-- The prompt loop of `check_folder_overwrite` (lines 174-191) over a queue
of user inputs; returns the action string together with the number of
`input()` calls consumed, or none when the queue runs out while the loop is
still re-prompting. A rename with a blank name re-prompts from the top. -/
def cfoLoop : List String → Option (String × Nat)
  | [] => none
  | c :: rest =>
    let choice := pyLower (pyStrip c)
    if choice = "s" ∨ choice = "skip" then some ("skip", 1)
    else if choice = "o" ∨ choice = "overwrite" then some ("overwrite", 1)
    else if choice = "r" ∨ choice = "rename" then
      match rest with
      | [] => none
      | n :: rest2 =>
        if pyStrip n ≠ "" then some ("rename:" ++ pyStrip n, 2)
        else (cfoLoop rest2).map (fun p => (p.1, p.2 + 2))
    else (cfoLoop rest).map (fun p => (p.1, p.2 + 1))

/-- `check_folder_overwrite` (lines 169-192): when the destination does not
exist the function returns "proceed" at once, consuming no input. -/
def check_folder_overwrite (destExists : Bool) (inputs : List String) :
    Option (String × Nat) :=
  if destExists then cfoLoop inputs else some ("proceed", 0)

/-- Ordered side effects performed by the `copy_folder` skeleton. -/
inductive Ev where
  | removeTree (path : List String)
  | mkdirP (path : List String)
  | sizeCheck
  | methodTest
  | launchTransfer
deriving DecidableEq

/-- Job outcome of `copy_folder`: the user skipped, or the transfer finished
with the given success flag. -/
inductive CopyResult where
  | skippedByUser
  | finished (success : Bool)
deriving DecidableEq

/-- Destination path built by `copy_folder`, as the path segments below the
working directory: bw_storage/<bw>/recordings/<name>. -/
def recordingsBase (bwName folderName : String) : List String :=
  ["bw_storage", bwName, "recordings", folderName]

/-- The orchestration skeleton of `copy_folder` (lines 456-580) with the
default auto speed setting: conflict decision first, then on skip an
immediate return with nothing launched; on rename the destination is rebuilt
from `split(":")[1]`; on overwrite the existing tree is removed first. After
that: mkdir, remote size query, method benchmark, and the transfer launch,
succeeding exactly when the transfer exits 0. Returns the ordered event
trace, the outcome, and the destination used; none when the prompt loop is
starved of input. -/
def copy_folder (bwName folderName : String) (destExists : Bool) (inputs : List String)
    (transferExit : ℤ) : Option (List Ev × CopyResult × List String) :=
  match check_folder_overwrite destExists inputs with
  | none => none
  | some (action, _) =>
    if action = "skip" then
      some ([], CopyResult.skippedByUser, recordingsBase bwName folderName)
    else
      let dest :=
        if pyStartsWith action "rename:" then
          recordingsBase bwName ((pySplitColon action).getD 1 "")
        else recordingsBase bwName folderName
      let evs0 :=
        if action = "overwrite" then [Ev.removeTree (recordingsBase bwName folderName)]
        else []
      some (evs0 ++ [Ev.mkdirP dest, Ev.sizeCheck, Ev.methodTest, Ev.launchTransfer],
            CopyResult.finished (transferExit == 0), dest)

/-- The attempt loop of `run_with_retry` (lines 146-166), driven by the exit
code each attempt would produce. Returns the sleep durations performed in
order, the number of command invocations, and the final returncode; none
models the unbound `result` when called with zero attempts. The sleep before
attempt number `attempt` (counted from 0) lasts `delay * attempt` seconds. -/
def retryRun (exitAt : Nat → ℤ) (delay : Nat) : Nat → Nat → Option (List Nat × Nat × ℤ)
  | _, 0 => none
  | attempt, remaining + 1 =>
    let sleeps := if 0 < attempt then [delay * attempt] else []
    let rc := exitAt attempt
    if rc = 0 ∨ remaining = 0 then some (sleeps, 1, rc)
    else
      match retryRun exitAt delay (attempt + 1) remaining with
      | none => none
      | some (s, n, rcf) => some (sleeps ++ s, n + 1, rcf)

/-- `run_with_retry` from the first attempt. -/
def run_with_retry (exitAt : Nat → ℤ) (maxRetries delay : Nat) :
    Option (List Nat × Nat × ℤ) :=
  retryRun exitAt delay 0 maxRetries

/-- The `du -sh` size-string estimate used by `main` (lines 900-902):
`float(size_str[:-1])` times the multiplier selected by the upper-cased last
character, defaulting to 1; none models the uncaught parse exception. -/
def parseSizeStr (s : String) : Option ℚ :=
  match parseFloat (pyDropLast s), s.toList.getLast? with
  | some num, some c =>
    let unit := c.toUpper
    let multiplier : ℚ :=
      if unit = 'K' then 1000
      else if unit = 'M' then 1000000
      else if unit = 'G' then 1000000000
      else if unit = 'T' then 1000000000000
      else 1
    some (num * multiplier)
  | _, _ => none

/-- Per-item outcome in the selection loop of `main`; `skippedSpace` stands
for the logged "SKIPPED, Insufficient space" branch that attempts no copy. -/
inductive ItemOutcome where
  | skippedSpace
  | copied
  | failed
deriving DecidableEq

/-- The per-item copy loop of `main` (lines 898-918): each selected item has
its size estimated, is skipped when the estimate strictly exceeds the free
space reported at that loop position (no transfer started), and otherwise
runs `copy_folder`; either way the loop continues with the remaining items.
The boolean in each outcome records whether a transfer was attempted. none
models the uncaught exception on an unparseable size string. -/
def processItems (free : Nat → ℚ) (copyOk : Nat → Bool) :
    Nat → List (String × String) → Option (List (String × ItemOutcome × Bool))
  | _, [] => some []
  | k, (folderName, sizeStr) :: rest =>
    match parseSizeStr sizeStr with
    | none => none
    | some est =>
      let entry :=
        if free k < est then (folderName, ItemOutcome.skippedSpace, false)
        else (folderName, (if copyOk k then ItemOutcome.copied else ItemOutcome.failed), true)
      (processItems free copyOk (k + 1) rest).map (fun l => entry :: l)

/-! Helper lemmas about the conflict-resolution prompt loop. -/

theorem cfoLoop_skip (rest : List String) : cfoLoop ("s" :: rest) = some ("skip", 1) := by
  rw [cfoLoop.eq_def]
  simp [show pyLower (pyStrip "s") = "s" from rfl]

theorem cfoLoop_ow (rest : List String) : cfoLoop ("o" :: rest) = some ("overwrite", 1) := by
  rw [cfoLoop.eq_def]
  simp [show pyLower (pyStrip "o") = "o" from rfl]

theorem cfoLoop_ren (rest : List String) :
    cfoLoop ("r" :: "foo2" :: rest) = some ("rename:foo2", 2) := by
  rw [cfoLoop.eq_def]
  simp [show pyLower (pyStrip "r") = "r" from rfl, show pyStrip "foo2" = "foo2" from rfl]

theorem cfoLoop_invalid (c : String) (rest : List String)
    (hc : pyLower (pyStrip c) ∉ (["s", "skip", "o", "overwrite", "r", "rename"] : List String)) :
    cfoLoop (c :: rest) = (cfoLoop rest).map (fun p => (p.1, p.2 + 1)) := by
  simp only [List.mem_cons, List.mem_singleton, not_or] at hc
  obtain ⟨h1, h2, h3, h4, h5, h6⟩ := hc
  rw [cfoLoop.eq_def]
  simp [h1, h2, h3, h4, h5, h6]

theorem cfoLoop_action (inputs : List String) (s : String) (k : Nat)
    (h : cfoLoop inputs = some (s, k)) :
    s = "skip" ∨ s = "overwrite" ∨ ∃ n, n ≠ "" ∧ s = "rename:" ++ n := by
  induction inputs using cfoLoop.induct generalizing s k with
  | case1 => simp [cfoLoop] at h
  | case2 c rest ch hch =>
    rw [cfoLoop.eq_def] at h
    simp only [if_pos hch] at h
    exact Or.inl (by cases h; rfl)
  | case3 c rest ch hn1 hch =>
    rw [cfoLoop.eq_def] at h
    simp only [if_neg hn1, if_pos hch] at h
    exact Or.inr (Or.inl (by cases h; rfl))
  | case4 c ch hn1 hn2 hch =>
    rw [cfoLoop.eq_def] at h
    simp only [if_neg hn1, if_neg hn2, if_pos hch] at h
    exact Option.noConfusion h
  | case5 c ch hn1 hn2 hch n rest2 hne =>
    rw [cfoLoop.eq_def] at h
    simp only [if_neg hn1, if_neg hn2, if_pos hch, if_pos hne] at h
    refine Or.inr (Or.inr ⟨pyStrip n, hne, ?_⟩)
    cases h; rfl
  | case6 c ch hn1 hn2 hch n rest2 hne ih =>
    rw [cfoLoop.eq_def] at h
    simp only [if_neg hn1, if_neg hn2, if_pos hch, if_neg hne, Option.map_eq_some'] at h
    obtain ⟨⟨s', k'⟩, hp, he⟩ := h
    cases he
    exact ih s' k' hp
  | case7 c rest ch hn1 hn2 hn3 ih =>
    rw [cfoLoop.eq_def] at h
    simp only [if_neg hn1, if_neg hn2, if_neg hn3, Option.map_eq_some'] at h
    obtain ⟨⟨s', k'⟩, hp, he⟩ := h
    cases he
    exact ih s' k' hp

/-- C10: when the destination does not already exist, `check_folder_overwrite`
returns "proceed" while consuming zero interactive prompts, so the copy
begins immediately under the original name; and any action the prompt loop
returns is skip, overwrite, or a rename carrying a non-empty name (a blank
rename input re-prompts instead of being accepted). -/
theorem c10_proceed_and_nonempty_rename (inputs : List String) (s : String) (k : Nat)
    (h : check_folder_overwrite true inputs = some (s, k)) :
    check_folder_overwrite false inputs = some ("proceed", 0) ∧
    (s = "skip" ∨ s = "overwrite" ∨ ∃ n, n ≠ "" ∧ s = "rename:" ++ n) := by
  refine ⟨rfl, ?_⟩
  simp only [check_folder_overwrite, reduceIte] at h
  exact cfoLoop_action inputs s k h

/-- Witness for C10 at a concrete rename interaction. -/
theorem c10_proceed_and_nonempty_rename_witness :
    check_folder_overwrite false ["r", "foo2"] = some ("proceed", 0) ∧
    ("rename:foo2" = "skip" ∨ "rename:foo2" = "overwrite" ∨
      ∃ n, n ≠ "" ∧ "rename:foo2" = "rename:" ++ n) :=
  c10_proceed_and_nonempty_rename ["r", "foo2"] "rename:foo2" 2 rfl

/-- C7: with an existing destination, choosing Overwrite removes the old
tree as the first side effect, before the size query, benchmark and transfer
launch; choosing Skip launches nothing and ends the job as skipped;
choosing Rename with name "foo2" redirects the destination to end in
"foo2"; and an invalid first choice is re-prompted, leaving the outcome
exactly that of the remaining inputs. -/
theorem c7_conflict_resolution (bw fld : String) (rest : List String) (e : ℤ) (c : String)
    (hc : pyLower (pyStrip c) ∉ (["s", "skip", "o", "overwrite", "r", "rename"] : List String)) :
    copy_folder bw fld true ("o" :: rest) e =
      some ([Ev.removeTree (recordingsBase bw fld), Ev.mkdirP (recordingsBase bw fld),
             Ev.sizeCheck, Ev.methodTest, Ev.launchTransfer],
            CopyResult.finished (e == 0), recordingsBase bw fld) ∧
    copy_folder bw fld true ("s" :: rest) e =
      some ([], CopyResult.skippedByUser, recordingsBase bw fld) ∧
    copy_folder bw fld true ("r" :: "foo2" :: rest) e =
      some ([Ev.mkdirP (recordingsBase bw "foo2"), Ev.sizeCheck, Ev.methodTest,
             Ev.launchTransfer],
            CopyResult.finished (e == 0), recordingsBase bw "foo2") ∧
    copy_folder bw fld true (c :: rest) e = copy_folder bw fld true rest e := by
  refine ⟨?_, ?_, ?_, ?_⟩
  · simp [copy_folder, check_folder_overwrite, cfoLoop_ow,
      show pyStartsWith "overwrite" "rename:" = false from rfl]
  · simp [copy_folder, check_folder_overwrite, cfoLoop_skip]
  · simp [copy_folder, check_folder_overwrite, cfoLoop_ren,
      show pyStartsWith "rename:foo2" "rename:" = true from rfl,
      show pySplitColon "rename:foo2" = ["rename", "foo2"] from rfl]
  · have hinv := cfoLoop_invalid c rest hc
    rcases hr : cfoLoop rest with _ | ⟨a, k2⟩ <;>
      simp only [copy_folder, check_folder_overwrite, reduceIte, hinv, hr,
        Option.map_none', Option.map_some']

/-- Witness for C7 at concrete names and inputs. -/
theorem c7_conflict_resolution_witness :
    copy_folder "BW104" "run1" true ("o" :: ["y"]) 0 =
      some ([Ev.removeTree (recordingsBase "BW104" "run1"),
             Ev.mkdirP (recordingsBase "BW104" "run1"),
             Ev.sizeCheck, Ev.methodTest, Ev.launchTransfer],
            CopyResult.finished ((0 : ℤ) == 0), recordingsBase "BW104" "run1") ∧
    copy_folder "BW104" "run1" true ("s" :: ["y"]) 0 =
      some ([], CopyResult.skippedByUser, recordingsBase "BW104" "run1") ∧
    copy_folder "BW104" "run1" true ("r" :: "foo2" :: ["y"]) 0 =
      some ([Ev.mkdirP (recordingsBase "BW104" "foo2"), Ev.sizeCheck, Ev.methodTest,
             Ev.launchTransfer],
            CopyResult.finished ((0 : ℤ) == 0), recordingsBase "BW104" "foo2") ∧
    copy_folder "BW104" "run1" true ("x" :: ["y"]) 0 = copy_folder "BW104" "run1" true ["y"] 0 :=
  c7_conflict_resolution "BW104" "run1" ["y"] 0 "x" (by decide)

/-! Helper lemmas about `ProgressBar.update` and `runUpdates`. -/

theorem ProgressBar.update_current (pb : ProgressBar) (b : ℤ) (t : ℚ) :
    (pb.update b t).1.current_size = b := by
  unfold ProgressBar.update
  split <;> rfl

theorem runUpdates_current (us : List (ℚ × ℤ)) (pb : ProgressBar) (v : ℤ)
    (h : (us.map Prod.snd).getLast? = some v) :
    (runUpdates pb us).1.current_size = v := by
  induction us generalizing pb with
  | nil => simp at h
  | cons u rest ih =>
    obtain ⟨t, b⟩ := u
    cases rest with
    | nil =>
      simp only [List.map_cons, List.map_nil, List.getLast?_singleton,
        Option.some.injEq] at h
      subst h
      simp [runUpdates, ProgressBar.update_current]
    | cons u2 rest2 =>
      rw [List.map_cons, List.map_cons, List.getLast?_cons_cons] at h
      simp only [runUpdates]
      exact ih ((pb.update b t).1) (by rw [List.map_cons]; exact h)

theorem runUpdates_renders (pb : ProgressBar) (us : List (ℚ × ℤ)) :
    (∀ r ∈ (runUpdates pb us).2, pb.last_update + 1 ≤ r) ∧
    List.Pairwise (fun a b : ℚ => a + 1 ≤ b) (runUpdates pb us).2 := by
  induction us generalizing pb with
  | nil => simp [runUpdates]
  | cons u rest ih =>
    obtain ⟨t, b⟩ := u
    simp only [runUpdates]
    by_cases hcond : (1 : ℚ) ≤ t - pb.last_update
    · rw [show pb.update b t = ({ pb with current_size := b, last_update := t }, true) from by
        simp [ProgressBar.update, hcond]]
      obtain ⟨ih1, ih2⟩ := ih { pb with current_size := b, last_update := t }
      simp only [if_true]
      constructor
      · intro r hr
        rcases List.mem_cons.mp hr with h | h
        · subst h; linarith
        · have hx := ih1 r h
          simp only at hx
          linarith
      · refine List.Pairwise.cons ?_ ih2
        intro r hr
        have hx := ih1 r hr
        simp only at hx
        linarith
    · rw [show pb.update b t = ({ pb with current_size := b }, false) from by
        simp [ProgressBar.update, hcond]]
      obtain ⟨ih1, ih2⟩ := ih { pb with current_size := b }
      simp only [Bool.false_eq_true, if_false]
      refine ⟨?_, ih2⟩
      intro r hr
      have hx := ih1 r hr
      simpa using hx

/-- C1 counterexample: `ProgressBar.update` stores the raw value, so an
update with a smaller value decreases `current_size`, and a value above
`total_size` is stored unclamped — `current_size` is not a high-water mark
and is not bounded by `total_size`. -/
theorem c1_counterexample_not_highwater :
    (((ProgressBar.init 1000 0).update 100 5).1.update 50 6).1.current_size = 50 ∧
    ((ProgressBar.init 1000 0).update 100 5).1.current_size = 100 ∧ (50 : ℤ) < 100 ∧
    ((ProgressBar.init 1000 0).update 2000 5).1.current_size = 2000 ∧
    (ProgressBar.init 1000 0).total_size = 1000 ∧ (1000 : ℤ) < 2000 := by
  refine ⟨?_, ?_, by norm_num, ?_, rfl, by norm_num⟩ <;>
    simp [ProgressBar.update_current]

/-- C1 (amended): `current_size` is last-write-wins rather than a high-water
mark: after any non-empty sequence of `update` calls within one job it
equals the most recent `bytes_transferred` value, whether or not that value
is lower than an earlier one or exceeds `total_size`. -/
theorem c1_update_last_write_wins (pb : ProgressBar) (us : List (ℚ × ℤ)) (v : ℤ)
    (h : (us.map Prod.snd).getLast? = some v) :
    (runUpdates pb us).1.current_size = v :=
  runUpdates_current us pb v h

/-- Witness for the amended C1. -/
theorem c1_update_last_write_wins_witness :
    (runUpdates (ProgressBar.init 1000 0) [(5, 100), (6, 50)]).1.current_size = 50 :=
  c1_update_last_write_wins (ProgressBar.init 1000 0) [(5, 100), (6, 50)] 50 rfl

/-- C8: `update` records the transferred-bytes value on every call, and the
re-renders it triggers are throttled: along any sequence of timestamped
update calls, any two render instants are at least one second of wall-clock
time apart. -/
theorem c8_update_records_and_throttles (pb : ProgressBar) (us : List (ℚ × ℤ))
    (b : ℤ) (t : ℚ) :
    (pb.update b t).1.current_size = b ∧
    List.Pairwise (fun a c : ℚ => a + 1 ≤ c) (runUpdates pb us).2 :=
  ⟨ProgressBar.update_current pb b t, (runUpdates_renders pb us).2⟩

/-- C4: `run_with_retry` with 3 attempts and base delay d: an always-failing
command is invoked exactly 3 times, with a sleep of d*1 before the second
attempt and d*2 before the third (cumulative d*(1+2)), and the third
attempt's failing result is returned rather than raised; a command that
exits 0 on its first attempt returns after one invocation with no sleep;
one that first exits 0 on its second attempt stops right there, after only
the d*1 sleep. -/
theorem c4_run_with_retry (d : Nat) (exitAt g h : Nat → ℤ)
    (hfail : ∀ n, exitAt n ≠ 0) (hg : g 0 = 0) (hh0 : h 0 ≠ 0) (hh1 : h 1 = 0) :
    run_with_retry exitAt 3 d = some ([d * 1, d * 2], 3, exitAt 2) ∧
    d * 1 + d * 2 = d * (1 + 2) ∧
    run_with_retry g 3 d = some ([], 1, 0) ∧
    run_with_retry h 3 d = some ([d * 1], 2, 0) := by
  refine ⟨?_, by ring, ?_, ?_⟩
  · simp [run_with_retry, retryRun, hfail 0, hfail 1, hfail 2]
  · simp [run_with_retry, retryRun, hg]
  · simp [run_with_retry, retryRun, hh0, hh1]

/-- Witness for C4 at concrete exit-code schedules and delay 5. -/
theorem c4_run_with_retry_witness :
    run_with_retry (fun _ => (1 : ℤ)) 3 5 = some ([5 * 1, 5 * 2], 3, (fun _ => (1 : ℤ)) 2) ∧
    5 * 1 + 5 * 2 = 5 * (1 + 2) ∧
    run_with_retry (fun _ => (0 : ℤ)) 3 5 = some ([], 1, 0) ∧
    run_with_retry (fun n => if n = 0 then (1 : ℤ) else 0) 3 5 = some ([5 * 1], 2, 0) :=
  c4_run_with_retry 5 (fun _ => 1) (fun _ => 0) (fun n => if n = 0 then 1 else 0)
    (fun _ => by norm_num) rfl (by norm_num) (by norm_num)

/-- C9: a selected item whose size estimate strictly exceeds the local free
space reported at its loop position is dealt with before any transfer is
attempted: its recorded outcome is the logged insufficient-space skip with
no transfer launched, and the loop goes on to process exactly the remaining
items instead of aborting. -/
theorem c9_insufficient_space (free : Nat → ℚ) (copyOk : Nat → Bool) (k : Nat)
    (fld sz : String) (rest : List (String × String)) (est : ℚ)
    (hparse : parseSizeStr sz = some est) (hover : free k < est) :
    processItems free copyOk k ((fld, sz) :: rest) =
      (processItems free copyOk (k + 1) rest).map
        (fun l => (fld, ItemOutcome.skippedSpace, false) :: l) := by
  simp only [processItems, hparse, if_pos hover]

/-- Witness for C9: a 2 KB item against 10 bytes of free space. -/
theorem c9_insufficient_space_witness :
    processItems (fun _ => 10) (fun _ => true) 0 [("big", "2K")] =
      (processItems (fun _ => 10) (fun _ => true) 1 []).map
        (fun l => ("big", ItemOutcome.skippedSpace, false) :: l) :=
  c9_insufficient_space (fun _ => 10) (fun _ => true) 0 "big" "2K" []
    (((2 : ℕ) : ℚ) * 1000) rfl (by norm_num)

/-- C2 (code bug): a line containing both summary markers is necessarily
non-blank and does not start with the file-list header, so the progress
branch consumes it; lacking a rate token it yields no signal, and the
summary branch that would feed the received byte count 200 to the tracker
is never reached for such a line — even though that branch's own token scan
would extract exactly 200. -/
theorem c2_summary_branch_dead :
    parseLine 1000 "bytes sent 100 and bytes received 200" = none ∧
    findReceivedTok (pySplit "bytes sent 100 and bytes received 200") = some 200 := by
  decide

/-! Helper lemmas for the unknown-size degradation of `copy_logs`. -/

theorem ProgressBar.display_none (pb : ProgressBar) (now : ℚ) (h : pb.total_size ≤ 0) :
    pb.display now = none := by
  unfold ProgressBar.display
  rw [if_pos h]

theorem copyLogsStep_state (pb : ProgressBar) (t : ℚ) (line : String) :
    (copyLogsStep pb t line).1.total_size = pb.total_size ∧
    (copyLogsStep pb t line).1.start_time = pb.start_time := by
  unfold copyLogsStep
  split
  · split
    · cases hp : percentSignal (pySplit line) <;> simp [hp]
    · exact ⟨rfl, rfl⟩
  · exact ⟨rfl, rfl⟩

theorem copyLogsStep_render_none (pb : ProgressBar) (t : ℚ) (line : String)
    (htot : pb.total_size ≤ 0) : (copyLogsStep pb t line).2 = none := by
  unfold copyLogsStep
  split
  · split
    · cases hp : percentSignal (pySplit line) with
      | none => simp [hp]
      | some q => exact ProgressBar.display_none _ _ htot
    · rfl
  · rfl

theorem copyLogsRun_none (ls : List (ℚ × String)) (pb : ProgressBar)
    (htot : pb.total_size ≤ 0) :
    (copyLogsRun pb ls).2 = List.replicate ls.length none ∧
    (copyLogsRun pb ls).1.total_size = pb.total_size ∧
    (copyLogsRun pb ls).1.start_time = pb.start_time := by
  induction ls generalizing pb with
  | nil => simp [copyLogsRun]
  | cons l rest ih =>
    obtain ⟨t, line⟩ := l
    simp only [copyLogsRun]
    obtain ⟨hs1, hs2⟩ := copyLogsStep_state pb t line
    obtain ⟨ih1, ih2, ih3⟩ := ih (copyLogsStep pb t line).1 (hs1 ▸ htot)
    refine ⟨?_, by rw [ih2, hs1], by rw [ih3, hs2]⟩
    rw [ih1, copyLogsStep_render_none pb t line htot, List.length_cons, List.replicate_succ]

/-- C5 counterexample: with an unknown (zero) total size, a rate line
carrying a percent token is not shown as a percent-only display — the
stream loop renders nothing at all for it. -/
theorem c5_counterexample_no_percent_render :
    (copy_logs_transfer 0 [(5, "1,234,567 45% 123.45MB/s 0:00:45")] 10 0).1 = [none] := by
  have h := copyLogsRun_none [(5, "1,234,567 45% 123.45MB/s 0:00:45")]
    (ProgressBar.init 0 0) le_rfl
  simpa [copy_logs_transfer] using h.1

/-- C5 (amended): with the total size unknown, the job does not abort: the
stream loop produces no rendering at all (display is suppressed whenever
total_size is not positive, so there is no percent-only line), the final
summary carries only the elapsed time and a zero average speed with no byte
totals, and the job is reported successful exactly when the transfer
command exits 0. -/
theorem c5_unknown_size_no_render (startTime endTime : ℚ) (outLines : List (ℚ × String))
    (exitCode : ℤ) (helapsed : 0 < endTime - startTime) :
    (copy_logs_transfer startTime outLines endTime exitCode).1 =
      List.replicate outLines.length none ∧
    (copy_logs_transfer startTime outLines endTime exitCode).2.1 =
      some ⟨endTime - startTime, 0⟩ ∧
    ((copy_logs_transfer startTime outLines endTime exitCode).2.2 = true ↔ exitCode = 0) := by
  obtain ⟨h1, h2, h3⟩ := copyLogsRun_none outLines (ProgressBar.init 0 startTime) le_rfl
  refine ⟨by simpa [copy_logs_transfer] using h1, ?_, by simp [copy_logs_transfer]⟩
  simp only [copy_logs_transfer]
  unfold ProgressBar.finish
  rw [h3, h2]
  simp only [ProgressBar.init]
  rw [if_pos helapsed]
  norm_num

/-- Witness for the amended C5 on a concrete stream. -/
theorem c5_unknown_size_no_render_witness :
    (copy_logs_transfer 0 [(5, "1,234,567 45% 123.45MB/s 0:00:45")] 10 0).1 =
      List.replicate [(5, "1,234,567 45% 123.45MB/s 0:00:45")].length (none : Option Render) ∧
    (copy_logs_transfer 0 [(5, "1,234,567 45% 123.45MB/s 0:00:45")] 10 0).2.1 =
      some ⟨10 - 0, 0⟩ ∧
    ((copy_logs_transfer 0 [(5, "1,234,567 45% 123.45MB/s 0:00:45")] 10 0).2.2 = true ↔
      (0 : ℤ) = 0) :=
  c5_unknown_size_no_render 0 10 [(5, "1,234,567 45% 123.45MB/s 0:00:45")] 0 (by norm_num)

/-- C6: `display` computes the ETA as (total_size - current_size) divided by
the current throughput and renders it in H:MM:SS form, and when the
throughput is zero (nothing transferred yet) it renders the unbounded
marker instead of dividing by zero; at total 1000000000 bytes, current
500000000 and elapsed 10 s the throughput is 50000000 B/s (shown as
50000000/1048576 MB/s) and the rendered ETA is exactly 10 seconds,
"0:00:10". -/
theorem c6_eta_rendering (pb : ProgressBar) (now : ℚ)
    (htot : 0 < pb.total_size) (helap : pb.start_time < now) (hcur : pb.current_size = 0) :
    ((pb.display now).map Render.eta) = some "∞" ∧
    ProgressBar.display ⟨1000000000, 500000000, 0, 0⟩ 10 =
      some ⟨50, 500000000 / 1048576, 1000000000 / 1048576, 50000000 / 1048576, "0:00:10"⟩ := by
  constructor
  · simp only [ProgressBar.display, hcur]
    rw [if_neg (not_le.mpr htot), if_neg (not_le.mpr (sub_pos.mpr helap))]
    norm_num
  · unfold ProgressBar.display
    norm_num
    have h10 : pyInt 10 = 10 := by
      unfold pyInt
      norm_num
    rw [h10]
    decide

/-- Witness for C6: a bar with zero bytes transferred after five seconds. -/
theorem c6_eta_rendering_witness :
    ((ProgressBar.display ⟨1000, 0, 0, 0⟩ 5).map Render.eta) = some "∞" ∧
    ProgressBar.display ⟨1000000000, 500000000, 0, 0⟩ 10 =
      some ⟨50, 500000000 / 1048576, 1000000000 / 1048576, 50000000 / 1048576, "0:00:10"⟩ :=
  c6_eta_rendering ⟨1000, 0, 0, 0⟩ 5 (by norm_num) (by norm_num) rfl

/-- C3: on a progress line that is non-blank, is not the file-list header,
carries the MB/s throughput marker, and whose first percent-ending token
parses to the value q ≥ 0, with a known positive total T the loop feeds the
tracker exactly the Python truncation of q/100*T — which is within one byte
of round(T*q/100), the claimed rounding tolerance. -/
theorem c3_percent_line_signal (line : String) (T : ℤ) (q : ℚ)
    (h1 : pyStrip line ≠ "") (h2 : ¬ pyStartsWith line "sending incremental file list")
    (h3 : containsSub line "%" = true) (h4 : containsSub line "MB/s" = true)
    (h5 : percentSignal (pySplit line) = some q) (h6 : 0 ≤ q) (h7 : 0 < T) :
    parseLine T line = some (pyInt (q / 100 * (T : ℚ))) ∧
    (pyInt (q / 100 * (T : ℚ)) - round ((T : ℚ) * q / 100)).natAbs ≤ 1 := by
  constructor
  · unfold parseLine
    rw [if_pos ⟨h1, h2⟩, h3, h4]
    simp only [Bool.and_self, if_true, h5]
  · have hx : (0 : ℚ) ≤ q / 100 * (T : ℚ) := by positivity
    have hpy : pyInt (q / 100 * (T : ℚ)) = Int.floor (q / 100 * (T : ℚ)) := by
      unfold pyInt
      rw [if_neg (not_lt.mpr hx)]
    have hcomm : (T : ℚ) * q / 100 = q / 100 * (T : ℚ) := by ring
    rw [hpy, hcomm]
    set x : ℚ := q / 100 * (T : ℚ) with hxdef
    have hlb : Int.floor x ≤ round x := by
      rw [round_eq]
      exact Int.floor_le_floor (by linarith)
    have hub : round x ≤ Int.floor x + 1 := by
      rw [round_eq]
      calc Int.floor (x + 1 / 2) ≤ Int.floor (x + 1) := Int.floor_le_floor (by linarith)
        _ = Int.floor x + 1 := Int.floor_add_one x
    omega

/-- Witness for C3 on the line "50% 10MB/s" with total size 7. -/
theorem c3_percent_line_signal_witness :
    parseLine 7 "50% 10MB/s" = some (pyInt (((50 : ℕ) : ℚ) / 100 * ((7 : ℤ) : ℚ))) ∧
    (pyInt (((50 : ℕ) : ℚ) / 100 * ((7 : ℤ) : ℚ)) -
      round (((7 : ℤ) : ℚ) * ((50 : ℕ) : ℚ) / 100)).natAbs ≤ 1 :=
  c3_percent_line_signal "50% 10MB/s" 7 ((50 : ℕ) : ℚ) (by decide) (by decide) (by decide)
    (by decide) rfl (by positivity) (by norm_num)
